/-
Verification of the RAG PDF-chat server (Express + BullMQ + Qdrant + LLM
backends) against its design specification.

The server code lives in three variants sharing one pipeline:
  * the Gemini variant (server/index.js),
  * the Hugging Face variant (hf_index.js),
  * the Ollama variant (ollama_index.js),
plus a BullMQ worker that loads a PDF, splits it with a
CharacterTextSplitter (chunkSize 1000, chunkOverlap 200) and upserts the
chunks into Qdrant.

The embedding below models each HTTP handler as a pure function of the
request data and of the outcomes of its external calls (retrieval and
generation), which are passed in as `Except` values.  JSON response
bodies are modelled by an explicit `Json` inductive; the side effects of
a request (embedding the query, querying the vector index, invoking the
generation backend) are returned as an explicit effect list.
-/
import Mathlib

namespace RagPdf

/-! ## JSON values (response bodies) -/

/-- A JSON value, as produced by `res.json(...)` in the handlers. -/
inductive Json where
  | str : String → Json
  | num : Nat → Json
  | arr : List Json → Json
  | obj : List (String × Json) → Json
deriving Inhabited

/-- Look up a top-level field of a JSON object. -/
def Json.getField : Json → String → Option Json
  | .obj fields, k => (fields.find? (fun kv => kv.1 == k)).map (fun kv => kv.2)
  | _, _ => none

/-- Does a JSON object have a top-level field named `k`? -/
def Json.hasField (j : Json) (k : String) : Bool :=
  (j.getField k).isSome

/-- The value of a top-level string field, when present and a string. -/
def Json.strField (j : Json) (k : String) : Option String :=
  match j.getField k with
  | some (.str s) => some s
  | _ => none

/-- Is this JSON value a string? -/
def Json.isStr : Json → Bool
  | .str _ => true
  | _ => false

/-! ## Substring containment (JavaScript `String.prototype.includes`) -/

/-- `containsStr s pat` models JavaScript `s.includes(pat)`. -/
def containsStr (s pat : String) : Bool :=
  decide (pat.data <:+: s.data)

/-- A string equal to `a ++ pat ++ b` contains `pat`. -/
theorem containsStr_of_eq_append (s a pat b : String) (h : s = a ++ pat ++ b) :
    containsStr s pat = true := by
  unfold containsStr
  rw [decide_eq_true_eq, h]
  exact ⟨a.data, b.data, by simp [String.data_append]⟩

/-! ## Data model -/

/-- The `loc` metadata stored by the PDF loader for every chunk. -/
structure LocMeta where
  pageNumber : Nat
deriving DecidableEq, Inhabited

/-- Metadata carried by a stored chunk (source file and page location). -/
structure DocMetadata where
  source : String
  loc : LocMeta
deriving DecidableEq, Inhabited

/-- A chunk as returned by `retriever.invoke`: its text and metadata. -/
structure RetrievedDoc where
  pageContent : String
  metadata : DocMetadata
deriving DecidableEq, Inhabited

/-- A chat message handed to a chat-style generation backend. -/
structure ChatMessage where
  role : String
  content : String
deriving DecidableEq, Inhabited

/-- An HTTP response: status code and JSON body. -/
structure HttpResponse where
  status : Nat
  body : Json
deriving Inhabited

/-- The observable side effects of one /chat request. -/
inductive Effect where
  | embedQuery : Effect
  | vectorQuery : Effect
  | llmCall : Effect
deriving DecidableEq, Inhabited

/-- Outcomes of the external calls made by a chat handler whose backend
takes a list of chat messages (the Gemini variant). -/
structure GeminiEnv where
  retrieval : Except String (List RetrievedDoc)
  llm : List ChatMessage → Except String String

/-- Outcomes of the external calls made by a chat handler whose backend
takes a single prompt string (the Hugging Face and Ollama variants). -/
structure PromptEnv where
  retrieval : Except String (List RetrievedDoc)
  llm : String → Except String String

/-! ## Context assembly (shared by all three variants)

`relevantDocs.map((doc, index) => ...).join("\n\n---\n\n")` -/

/-- The grounding context block: each retrieved chunk labeled with its
1-based ordinal, joined with a separator line. -/
def contextOf (docs : List RetrievedDoc) : String :=
  String.intercalate "\n\n---\n\n"
    (docs.enum.map (fun p => "Document " ++ toString (p.1 + 1) ++ ":\n" ++ p.2.pageContent))

/-- The 400 response returned when the `message` query parameter is
missing or empty. -/
def badRequest : HttpResponse :=
  { status := 400, body := .obj [("error", .str "Message query parameter is required")] }

/-! ## Gemini variant (server/index.js) -/

/-- The system prompt built by the Gemini /chat handler (template literal
ending in the context block). -/
def geminiSystemPrompt (docs : List RetrievedDoc) : String :=
  "You are a helpful AI assistant that answers questions based on PDF document content.\n\nInstructions:\n- Answer the user\x27s question using ONLY the provided context from the PDF documents\n- If the answer is not in the context, clearly state that the information is not available in the provided documents\n- Be concise but comprehensive in your responses\n- Maintain a professional and helpful tone\n\nContext from PDF documents:\n"
    ++ contextOf docs

/-- The message list handed to `llm.invoke` by the Gemini handler:
a system message holding the prompt and a user message holding the query. -/
def geminiMessages (q : String) (docs : List RetrievedDoc) : List ChatMessage :=
  [{ role := "system", content := geminiSystemPrompt docs },
   { role := "user", content := q }]

/-- The Gemini handler's catch block: classify the error message and
produce the error response. -/
def geminiCatch (m : String) : HttpResponse :=
  if containsStr m "quota" then
    { status := 429, body := .obj [("error", .str "API quota exceeded. Please try again later.")] }
  else if containsStr m "API key" then
    { status := 401, body := .obj [("error", .str "Invalid API key. Please check your Google API key.")] }
  else
    { status := 500,
      body := .obj [("error", .str "Failed to process chat request"), ("details", .str m)] }

/-- The Gemini handler's success body: message text, a source count and
the model name (no `docs` field). -/
def geminiChatBody (content : String) (docs : List RetrievedDoc) : Json :=
  .obj [("message", .str content),
        ("sources", .num docs.length),
        ("model", .str "gemini-1.5-flash")]

/-- The Gemini GET /chat handler, as a function of the query parameter and
of the outcomes of its external calls; returns the response and the list
of side effects performed. -/
def geminiChat (query : Option String) (env : GeminiEnv) : HttpResponse × List Effect :=
  match query with
  | none => (badRequest, [])
  | some q =>
    if q = "" then (badRequest, [])
    else
      match env.retrieval with
      | .error e => (geminiCatch e, [.embedQuery, .vectorQuery])
      | .ok docs =>
        match env.llm (geminiMessages q docs) with
        | .error e => (geminiCatch e, [.embedQuery, .vectorQuery, .llmCall])
        | .ok content =>
          ({ status := 200, body := geminiChatBody content docs },
           [.embedQuery, .vectorQuery, .llmCall])

/-! ## Hugging Face variant (hf_index.js) -/

/-- The single prompt string built by the Hugging Face /chat handler:
context block, then the question, then instructions, ending in "Answer:". -/
def hfPrompt (q : String) (docs : List RetrievedDoc) : String :=
  "You are a helpful AI assistant that answers questions based on PDF document content.\n\nContext from PDF documents:\n"
    ++ contextOf docs
    ++ "\n\nQuestion: "
    ++ q
    ++ "\n\nInstructions:\n- Answer the question using ONLY the provided context from the PDF documents\n- If the answer is not in the context, clearly state that the information is not available\n- Be concise but comprehensive in your response\n- Maintain a professional and helpful tone\n\nAnswer:"

/-- The last index at which `pat` occurs in `s` (JavaScript `lastIndexOf`),
`none` when absent. -/
def lastOccurrence (pat s : List Char) : Option Nat :=
  ((List.range (s.length + 1)).filter (fun i => pat.isPrefixOf (s.drop i))).getLast?

/-- The Hugging Face handler's response cleanup: if the lowercased
response contains "answer:", keep only the text after its last
occurrence, trimmed. -/
def hfCleanResponse (response : String) : String :=
  match lastOccurrence "answer:".data (response.data.map Char.toLower) with
  | none => response
  | some i => (String.mk (response.data.drop (i + 7))).trim

/-- Serialization of a stored chunk's metadata as returned to the client. -/
def metadataToJson (m : DocMetadata) : Json :=
  .obj [("source", .str m.source),
        ("loc", .obj [("pageNumber", .num m.loc.pageNumber)])]

/-- `relevantDocs.map(doc => ({pageContent, metadata}))`. -/
def docToJson (d : RetrievedDoc) : Json :=
  .obj [("pageContent", .str d.pageContent), ("metadata", metadataToJson d.metadata)]

/-- The Hugging Face handler's catch block. -/
def hfCatch (m : String) : HttpResponse :=
  if containsStr m "rate limit" || containsStr m "quota" then
    { status := 429,
      body := .obj [("error", .str "Hugging Face API rate limit exceeded. Please try again later."),
                    ("details", .str "Free tier has limited requests per hour")] }
  else if containsStr m "API key" || containsStr m "authentication" then
    { status := 401,
      body := .obj [("error", .str "Invalid Hugging Face API key. Please check your configuration."),
                    ("details", .str "Get your API key from https://huggingface.co/settings/tokens")] }
  else if containsStr m "model" && containsStr m "loading" then
    { status := 503,
      body := .obj [("error", .str "Model is loading. Please try again in a few moments."),
                    ("details", .str "Hugging Face models may take time to load on first request")] }
  else
    { status := 500,
      body := .obj [("error", .str "Failed to process chat request"), ("details", .str m)] }

/-- The Hugging Face handler's success body: cleaned message, source
count, model name and a `docs` array. -/
def hfChatBody (response : String) (docs : List RetrievedDoc) : Json :=
  .obj [("message", .str (hfCleanResponse response)),
        ("sources", .num docs.length),
        ("model", .str "microsoft/DialoGPT-large"),
        ("docs", .arr (docs.map docToJson))]

/-- The Hugging Face GET /chat handler. -/
def hfChat (query : Option String) (env : PromptEnv) : HttpResponse × List Effect :=
  match query with
  | none => (badRequest, [])
  | some q =>
    if q = "" then (badRequest, [])
    else
      match env.retrieval with
      | .error e => (hfCatch e, [.embedQuery, .vectorQuery])
      | .ok docs =>
        match env.llm (hfPrompt q docs) with
        | .error e => (hfCatch e, [.embedQuery, .vectorQuery, .llmCall])
        | .ok response =>
          ({ status := 200, body := hfChatBody response docs },
           [.embedQuery, .vectorQuery, .llmCall])

/-! ## Ollama variant (ollama_index.js) -/

/-- The system prompt built by the Ollama /chat handler.  Note: the
template contains the context block but no interpolation of the user
query. -/
def ollamaSystemPrompt (docs : List RetrievedDoc) : String :=
  "You are a helpful AI assistant that answers questions based on PDF document content.\nInstructions:\n- Answer the user\x27s question using ONLY the provided context from the PDF documents\n- If the answer is not in the context, clearly state that the information is not available in the provided documents\n- Be concise but comprehensive in your responses\n- Maintain a professional and helpful tone\n\nContext from PDF documents:\n"
    ++ contextOf docs

/-- The Ollama handler's catch block. -/
def ollamaCatch (m : String) : HttpResponse :=
  if containsStr m "connect ECONNREFUSED" then
    { status := 503,
      body := .obj [("error", .str "Ollama service is not running. Please start Ollama first."),
                    ("details", .str "Run \x27ollama serve\x27 in your terminal")] }
  else if containsStr m "model" && containsStr m "not found" then
    { status := 404,
      body := .obj [("error", .str "Model not found. Please pull the model first."),
                    ("details", .str "Run \x27ollama pull llama3.1\x27 in your terminal")] }
  else
    { status := 500,
      body := .obj [("error", .str "Failed to process chat request"), ("details", .str m)] }

/-- The Ollama handler's success body. -/
def ollamaChatBody (response : String) (docs : List RetrievedDoc) : Json :=
  .obj [("message", .str response),
        ("sources", .num docs.length),
        ("model", .str "llama3.1"),
        ("docs", .arr (docs.map docToJson))]

/-- The Ollama GET /chat handler.  `llm.invoke(systemPrompt)` is called on
the system prompt alone: the user query is used only for retrieval. -/
def ollamaChat (query : Option String) (env : PromptEnv) : HttpResponse × List Effect :=
  match query with
  | none => (badRequest, [])
  | some q =>
    if q = "" then (badRequest, [])
    else
      match env.retrieval with
      | .error e => (ollamaCatch e, [.embedQuery, .vectorQuery])
      | .ok docs =>
        match env.llm (ollamaSystemPrompt docs) with
        | .error e => (ollamaCatch e, [.embedQuery, .vectorQuery, .llmCall])
        | .ok response =>
          ({ status := 200, body := ollamaChatBody response docs },
           [.embedQuery, .vectorQuery, .llmCall])

/-! ## The text handed to the generation backend -/

/-- Concatenation of the contents of a message list. -/
def contentsConcat : List ChatMessage → String
  | [] => ""
  | m :: ms => m.content ++ contentsConcat ms

/-- All text the Gemini handler hands to its backend for one request. -/
def geminiHanded (q : String) (docs : List RetrievedDoc) : String :=
  contentsConcat (geminiMessages q docs)

/-- All text the Hugging Face handler hands to its backend. -/
def hfHanded (q : String) (docs : List RetrievedDoc) : String :=
  hfPrompt q docs

/-- All text the Ollama handler hands to its backend: the system prompt
alone (the query parameter is not part of it). -/
def ollamaHanded (_q : String) (docs : List RetrievedDoc) : String :=
  ollamaSystemPrompt docs

/-! ## Upload endpoint (shared verbatim by all three variants) -/

/-- The POST /upload/pdf handler, as a function of the enqueue outcome:
`res.json({message: "PDF uploaded successfully"})` on success (default
status 200), status 500 with an error body when `queue.add` throws. -/
def uploadHandler (enqueue : Except String Unit) : HttpResponse :=
  match enqueue with
  | .ok _ => { status := 200, body := .obj [("message", .str "PDF uploaded successfully")] }
  | .error _ => { status := 500, body := .obj [("error", .str "Failed to upload file")] }

/-! ## Worker: text splitting (worker.js) -/

/-- The options object passed to `new CharacterTextSplitter(...)`. -/
structure SplitterConfig where
  chunkSize : Nat
  chunkOverlap : Nat
deriving DecidableEq, Inhabited

/-- The splitter the worker constructs: `chunkSize: 1000, chunkOverlap: 200`. -/
def workerTextSplitter : SplitterConfig :=
  { chunkSize := 1000, chunkOverlap := 200 }

/-- Modelled from the spec: the `CharacterTextSplitter` the worker calls is
an external library whose code is not part of this repository; per the
spec it splits text "into chunks using a fixed target size with overlap
between consecutive chunks".  Each chunk takes `chunkSize` characters
and the next chunk restarts `chunkOverlap` characters before the end of
the previous one; a degenerate configuration (overlap at or above the
chunk size) yields the whole text as one chunk. -/
def splitCharsFuel : Nat → Nat → Nat → List Char → List (List Char)
  | 0, _, _, t => [t]
  | Nat.succ fuel, chunkSize, overlap, t =>
    if chunkSize ≤ overlap then [t]
    else if t.length ≤ chunkSize then [t]
    else t.take chunkSize :: splitCharsFuel fuel chunkSize overlap (t.drop (chunkSize - overlap))

/-- Splitting proper; the fuel `t.length` is never exhausted, as every
recursive step drops at least one character. -/
def splitChars (chunkSize overlap : Nat) (t : List Char) : List (List Char) :=
  splitCharsFuel t.length chunkSize overlap t

/-- String-level splitting with a given splitter configuration. -/
def splitStringChunks (cfg : SplitterConfig) (s : String) : List String :=
  (splitChars cfg.chunkSize cfg.chunkOverlap s.data).map String.mk

/-- The worker's `textSplitter.splitDocuments(docs)` step: split every
loaded page with the worker's splitter, in order. -/
def workerSplitDocs (pages : List String) : List String :=
  pages.flatMap (fun p => splitStringChunks workerTextSplitter p)

/-! ## Environment configuration read by the /chat handlers -/

/-- Lookup in the process environment (`process.env`). -/
def envLookup (env : List (String × String)) (k : String) : Option String :=
  (env.find? (fun kv => kv.1 == k)).map (fun kv => kv.2)

/-- Options for `new GoogleGenerativeAIEmbeddings(...)`: the handlers read
the environment for the API key; the model name is a literal. -/
structure EmbeddingsConfig where
  apiKey : Option String
  model : String
deriving DecidableEq, Inhabited

/-- The embeddings configuration each /chat handler builds from the
process environment. -/
def chatEmbeddingsConfig (env : List (String × String)) : EmbeddingsConfig :=
  { apiKey := envLookup env "GOOGLE_API_KEY", model := "text-embedding-004" }

/-- The options object passed to `vectorStore.asRetriever`. -/
structure RetrieverOptions where
  k : Nat
deriving DecidableEq, Inhabited

/-- The retriever options built by every /chat handler, as a function of
the process environment: `k` is the literal 3 in all three variants and
no environment variable is consulted for it. -/
def chatRetrieverOptions (_env : List (String × String)) : RetrieverOptions :=
  { k := 3 }

/-! ## Observables used by the statements -/

/-- A sample retrieved chunk used in concrete instantiations. -/
def sampleDoc : RetrievedDoc :=
  { pageContent := "alpha beta", metadata := { source := "a.pdf", loc := { pageNumber := 2 } } }

/-- The /chat response shape the design requires: a `docs` array whose
elements carry `pageContent` and `metadata.loc.pageNumber`. -/
def chatDocsShapeOk (body : Json) : Bool :=
  match body.getField "docs" with
  | some (.arr l) =>
    l.all (fun d =>
      d.hasField "pageContent" &&
      (match d.getField "metadata" with
       | some m =>
         (match m.getField "loc" with
          | some lc => lc.hasField "pageNumber"
          | _ => false)
       | _ => false))
  | _ => false

/-! ## Helper lemmas about substring containment -/

/-- Containment is preserved by appending on the left. -/
theorem containsStr_append_left (a b pat : String) (h : containsStr b pat = true) :
    containsStr (a ++ b) pat = true := by
  unfold containsStr at *
  rw [decide_eq_true_eq] at *
  obtain ⟨s, t, hst⟩ := h
  exact ⟨a.data ++ s, t, by rw [String.data_append, ← hst]; simp⟩

/-- Containment is preserved by appending on the right. -/
theorem containsStr_append_right (a b pat : String) (h : containsStr a pat = true) :
    containsStr (a ++ b) pat = true := by
  unfold containsStr at *
  rw [decide_eq_true_eq] at *
  obtain ⟨s, t, hst⟩ := h
  exact ⟨s, t ++ b.data, by rw [String.data_append, ← hst]; simp⟩

/-- Every string contains itself. -/
theorem containsStr_self (s : String) : containsStr s s = true := by
  unfold containsStr
  rw [decide_eq_true_eq]

/-! ## Helper lemmas about the catch blocks -/

/-- The Gemini catch block only ever picks 429, 401 or 500. -/
theorem geminiCatch_status (m : String) :
    (geminiCatch m).status = 429 ∨ (geminiCatch m).status = 401 ∨
      (geminiCatch m).status = 500 := by
  unfold geminiCatch
  split
  · exact Or.inl rfl
  · split
    · exact Or.inr (Or.inl rfl)
    · exact Or.inr (Or.inr rfl)

/-- The Hugging Face catch block only ever picks 429, 401, 503 or 500. -/
theorem hfCatch_status (m : String) :
    (hfCatch m).status = 429 ∨ (hfCatch m).status = 401 ∨
      (hfCatch m).status = 503 ∨ (hfCatch m).status = 500 := by
  unfold hfCatch
  split
  · exact Or.inl rfl
  · split
    · exact Or.inr (Or.inl rfl)
    · split
      · exact Or.inr (Or.inr (Or.inl rfl))
      · exact Or.inr (Or.inr (Or.inr rfl))

/-- The Ollama catch block only ever picks 503, 404 or 500. -/
theorem ollamaCatch_status (m : String) :
    (ollamaCatch m).status = 503 ∨ (ollamaCatch m).status = 404 ∨
      (ollamaCatch m).status = 500 := by
  unfold ollamaCatch
  split
  · exact Or.inl rfl
  · split
    · exact Or.inr (Or.inl rfl)
    · exact Or.inr (Or.inr rfl)

/-! ## Claim theorems -/

set_option maxRecDepth 100000 in
/-- C1.  On the Gemini variant — the repository's main server — a
successful GET /chat response carries a string `message` but NO `docs`
array at all (only a `sources` count and the model name), contradicting
the documented response shape; the Hugging Face and Ollama variants do
return the `docs` array with `pageContent` and `metadata.loc.pageNumber`
on each element. -/
theorem gemini_chat_success_omits_docs_array :
    (geminiChat (some "q") { retrieval := .ok [sampleDoc], llm := fun _ => .ok "ans" }).1.status = 200 ∧
    ((geminiChat (some "q") { retrieval := .ok [sampleDoc], llm := fun _ => .ok "ans" }).1.body.strField "message") = some "ans" ∧
    ((geminiChat (some "q") { retrieval := .ok [sampleDoc], llm := fun _ => .ok "ans" }).1.body.hasField "docs") = false ∧
    (hfChat (some "q") { retrieval := .ok [sampleDoc], llm := fun _ => .ok "ans" }).1.status = 200 ∧
    chatDocsShapeOk ((hfChat (some "q") { retrieval := .ok [sampleDoc], llm := fun _ => .ok "ans" }).1.body) = true ∧
    chatDocsShapeOk ((ollamaChat (some "q") { retrieval := .ok [sampleDoc], llm := fun _ => .ok "ans" }).1.body) = true := by
  decide

set_option maxRecDepth 100000 in
/-- C2.  The Gemini and Hugging Face variants hand the generation backend
text containing both the assembled context block and the user's query;
the Ollama variant hands it the system prompt alone, which contains the
context but NOT the query (shown at the concrete query "zxqvj"). -/
theorem ollama_prompt_omits_user_query :
    (∀ (q : String) (docs : List RetrievedDoc),
        containsStr (geminiHanded q docs) (contextOf docs) = true ∧
        containsStr (geminiHanded q docs) q = true) ∧
    (∀ (q : String) (docs : List RetrievedDoc),
        containsStr (hfHanded q docs) (contextOf docs) = true ∧
        containsStr (hfHanded q docs) q = true) ∧
    (∀ (q : String) (docs : List RetrievedDoc),
        containsStr (ollamaHanded q docs) (contextOf docs) = true) ∧
    containsStr (ollamaHanded "zxqvj" [sampleDoc]) "zxqvj" = false := by
  refine ⟨fun q docs => ⟨?_, ?_⟩, fun q docs => ⟨?_, ?_⟩, fun q docs => ?_, by decide⟩
  · show containsStr (geminiSystemPrompt docs ++ (q ++ "")) (contextOf docs) = true
    refine containsStr_append_right _ _ _ ?_
    unfold geminiSystemPrompt
    exact containsStr_append_left _ _ _ (containsStr_self _)
  · show containsStr (geminiSystemPrompt docs ++ (q ++ "")) q = true
    refine containsStr_append_left _ _ _ ?_
    exact containsStr_append_right _ _ _ (containsStr_self _)
  · unfold hfHanded hfPrompt
    refine containsStr_append_right _ _ _ ?_
    refine containsStr_append_right _ _ _ ?_
    refine containsStr_append_right _ _ _ ?_
    exact containsStr_append_left _ _ _ (containsStr_self _)
  · unfold hfHanded hfPrompt
    refine containsStr_append_right _ _ _ ?_
    exact containsStr_append_left _ _ _ (containsStr_self _)
  · unfold ollamaHanded ollamaSystemPrompt
    exact containsStr_append_left _ _ _ (containsStr_self _)

set_option maxRecDepth 100000 in
/-- C3 (counterexample).  A model-not-found generation failure on the
Ollama variant makes GET /chat return 404, a status outside the claimed
set of failure codes. -/
theorem ollama_model_not_found_returns_404 :
    (ollamaChat (some "hi")
        { retrieval := .ok [], llm := fun _ => .error "model llama3.1 not found" }).1.status = 404 ∧
    (404 : Nat) ∉ ([429, 401, 503, 500] : List Nat) := by
  decide

/-- C3 (amended).  Every /chat response status is drawn from 200 and 400
plus per-variant failure codes: 429/401/500 on the Gemini variant,
429/401/503/500 on the Hugging Face variant, and 503/404/500 on the
Ollama variant; no handler ever produces a status outside those sets,
and every outcome yields a structured response (the handler is a total
function). -/
theorem chat_status_codes_within_variant_sets (q : Option String)
    (envG : GeminiEnv) (envH envO : PromptEnv) :
    (geminiChat q envG).1.status ∈ ([200, 400, 429, 401, 500] : List Nat) ∧
    (hfChat q envH).1.status ∈ ([200, 400, 429, 401, 503, 500] : List Nat) ∧
    (ollamaChat q envO).1.status ∈ ([200, 400, 503, 404, 500] : List Nat) := by
  refine ⟨?_, ?_, ?_⟩
  · match q with
    | none => simp [geminiChat, badRequest]
    | some s =>
      by_cases hs : s = ""
      · simp [geminiChat, hs, badRequest]
      · rcases hr : envG.retrieval with e | docs
        · rcases geminiCatch_status e with h | h | h <;>
            simp [geminiChat, hs, hr, h]
        · rcases hl : envG.llm (geminiMessages s docs) with e | c
          · rcases geminiCatch_status e with h | h | h <;>
              simp [geminiChat, hs, hr, hl, h]
          · simp [geminiChat, hs, hr, hl]
  · match q with
    | none => simp [hfChat, badRequest]
    | some s =>
      by_cases hs : s = ""
      · simp [hfChat, hs, badRequest]
      · rcases hr : envH.retrieval with e | docs
        · rcases hfCatch_status e with h | h | h | h <;>
            simp [hfChat, hs, hr, h]
        · rcases hl : envH.llm (hfPrompt s docs) with e | c
          · rcases hfCatch_status e with h | h | h | h <;>
              simp [hfChat, hs, hr, hl, h]
          · simp [hfChat, hs, hr, hl]
  · match q with
    | none => simp [ollamaChat, badRequest]
    | some s =>
      by_cases hs : s = ""
      · simp [ollamaChat, hs, badRequest]
      · rcases hr : envO.retrieval with e | docs
        · rcases ollamaCatch_status e with h | h | h <;>
            simp [ollamaChat, hs, hr, h]
        · rcases hl : envO.llm (ollamaSystemPrompt docs) with e | c
          · rcases ollamaCatch_status e with h | h | h <;>
              simp [ollamaChat, hs, hr, hl, h]
          · simp [ollamaChat, hs, hr, hl]

/-- C4.  A missing or empty `message` query parameter makes every /chat
variant answer 400 with an error body and perform no side effects: no
query embedding, no vector-index query, no generation call. -/
theorem blank_query_rejected_without_side_effects (q : Option String)
    (envG : GeminiEnv) (envH envO : PromptEnv) (h : q = none ∨ q = some "") :
    (geminiChat q envG).1.status = 400 ∧
    (geminiChat q envG).1.body.hasField "error" = true ∧
    (geminiChat q envG).2 = [] ∧
    (hfChat q envH).1.status = 400 ∧ (hfChat q envH).2 = [] ∧
    (ollamaChat q envO).1.status = 400 ∧ (ollamaChat q envO).2 = [] := by
  rcases h with h | h <;> subst h <;>
    exact ⟨rfl, rfl, rfl, rfl, rfl, rfl, rfl⟩

/-- C4 (witness): the empty query on concrete environments. -/
theorem blank_query_rejected_without_side_effects_witness :
    (geminiChat (some "") { retrieval := .ok [], llm := fun _ => .ok "x" }).1.status = 400 ∧
    (geminiChat (some "") { retrieval := .ok [], llm := fun _ => .ok "x" }).1.body.hasField "error" = true ∧
    (geminiChat (some "") { retrieval := .ok [], llm := fun _ => .ok "x" }).2 = [] ∧
    (hfChat (some "") { retrieval := .ok [], llm := fun _ => .ok "x" }).1.status = 400 ∧
    (hfChat (some "") { retrieval := .ok [], llm := fun _ => .ok "x" }).2 = [] ∧
    (ollamaChat (some "") { retrieval := .ok [], llm := fun _ => .ok "x" }).1.status = 400 ∧
    (ollamaChat (some "") { retrieval := .ok [], llm := fun _ => .ok "x" }).2 = [] :=
  blank_query_rejected_without_side_effects (some "") _ _ _ (Or.inr rfl)

/-- C5.  With zero retrieved chunks the Gemini /chat handler still builds
an empty context block, still invokes the generation backend, and
answers 200 with the backend's message — no exception path. -/
theorem zero_chunks_still_generates (q content : String) (h : q ≠ "") :
    contextOf [] = "" ∧
    (geminiChat (some q) { retrieval := .ok [], llm := fun _ => .ok content }).1.status = 200 ∧
    (geminiChat (some q)
        { retrieval := .ok [], llm := fun _ => .ok content }).1.body.strField "message" = some content ∧
    Effect.llmCall ∈ (geminiChat (some q) { retrieval := .ok [], llm := fun _ => .ok content }).2 := by
  refine ⟨rfl, ?_, ?_, ?_⟩ <;>
    simp [geminiChat, h, geminiChatBody, Json.strField, Json.getField, List.find?]

/-- C5 (witness): a concrete non-blank query with zero chunks. -/
theorem zero_chunks_still_generates_witness :
    contextOf [] = "" ∧
    (geminiChat (some "What is this about?")
        { retrieval := .ok [], llm := fun _ => .ok "No information available." }).1.status = 200 ∧
    (geminiChat (some "What is this about?")
        { retrieval := .ok [],
          llm := fun _ => .ok "No information available." }).1.body.strField "message" =
      some "No information available." ∧
    Effect.llmCall ∈ (geminiChat (some "What is this about?")
        { retrieval := .ok [], llm := fun _ => .ok "No information available." }).2 :=
  zero_chunks_still_generates "What is this about?" "No information available." (by decide)

/-- C6.  The worker's text splitter is constructed with a target chunk
size of 1000 characters and a 200-character overlap, and the worker's
split step applies exactly that splitter to every loaded page. -/
theorem worker_splitter_config_1000_200 :
    workerTextSplitter.chunkSize = 1000 ∧ workerTextSplitter.chunkOverlap = 200 ∧
    workerSplitDocs = fun pages =>
      pages.flatMap (fun p => splitStringChunks { chunkSize := 1000, chunkOverlap := 200 } p) :=
  ⟨rfl, rfl, rfl⟩

/-- C7.  Chunking is deterministic: two runs of the splitting function on
the same text with the same size/overlap parameters yield the same
ordered chunk sequence. -/
theorem chunking_deterministic (cfg₁ cfg₂ : SplitterConfig) (s₁ s₂ : String)
    (hc : cfg₁ = cfg₂) (hs : s₁ = s₂) :
    splitStringChunks cfg₁ s₁ = splitStringChunks cfg₂ s₂ := by
  rw [hc, hs]

/-- C7 (witness): two runs on a concrete text agree, and evaluate to the
expected overlapping chunk sequence. -/
theorem chunking_deterministic_witness :
    splitStringChunks { chunkSize := 5, chunkOverlap := 2 } "abcdefghij" =
      splitStringChunks { chunkSize := 5, chunkOverlap := 2 } "abcdefghij" ∧
    splitStringChunks { chunkSize := 5, chunkOverlap := 2 } "abcdefghij" =
      ["abcde", "defgh", "ghij"] :=
  ⟨chunking_deterministic _ _ _ _ rfl rfl, by decide⟩

/-- C8 (counterexample).  Setting a retrieval-k option in the process
environment does not change the `k` the /chat handlers pass to
`asRetriever`: it stays the literal 3, while the environment IS read for
the embedding API key — so k is not environment-configurable. -/
theorem retrieval_k_ignores_environment :
    (chatRetrieverOptions [("RETRIEVAL_K", "2")]).k = 3 ∧
    (chatRetrieverOptions [("RETRIEVAL_K", "2")]).k = (chatRetrieverOptions []).k ∧
    (chatEmbeddingsConfig [("GOOGLE_API_KEY", "k1")]).apiKey = some "k1" := by
  decide

/-- C8 (amended).  The retriever is queried for the top-k chunks with k
fixed at the source literal 3 (within the spec's 2-or-3 range) in every
variant, regardless of the environment. -/
theorem retrieval_k_fixed_at_three (env : List (String × String)) :
    (chatRetrieverOptions env).k = 3 ∧
    ((chatRetrieverOptions env).k = 2 ∨ (chatRetrieverOptions env).k = 3) :=
  ⟨rfl, Or.inr rfl⟩

/-- C9 (counterexample).  A successful enqueue yields status 200, but the
body's `message` is "PDF uploaded successfully", not "uploaded". -/
theorem upload_success_message_mismatch :
    (uploadHandler (.ok ())).status = 200 ∧
    (uploadHandler (.ok ())).body.strField "message" = some "PDF uploaded successfully" ∧
    (uploadHandler (.ok ())).body.strField "message" ≠ some "uploaded" := by
  decide

/-- C9 (amended).  POST /upload/pdf answers 200 with
message "PDF uploaded successfully" when the enqueue succeeds, and 500
with error "Failed to upload file" when it fails. -/
theorem upload_handler_status_and_bodies :
    (∀ u : Unit, (uploadHandler (.ok u)).status = 200 ∧
      (uploadHandler (.ok u)).body.strField "message" = some "PDF uploaded successfully") ∧
    (∀ e : String, (uploadHandler (.error e)).status = 500 ∧
      (uploadHandler (.error e)).body.strField "error" = some "Failed to upload file") :=
  ⟨fun _ => ⟨rfl, rfl⟩, fun _ => ⟨rfl, rfl⟩⟩

/-- C10.  The /chat guard rejects only a missing or empty `message`: any
other string — a lone space included — is fully processed: the query is
embedded, the vector index is queried, the generation backend is
invoked, and a 200 response is produced (Gemini and Ollama variants). -/
theorem whitespace_query_fully_processed (q : String) (h : q ≠ "")
    (docs : List RetrievedDoc) (content : String) :
    (geminiChat (some q) { retrieval := .ok docs, llm := fun _ => .ok content }).1.status = 200 ∧
    (geminiChat (some q) { retrieval := .ok docs, llm := fun _ => .ok content }).2 =
      [.embedQuery, .vectorQuery, .llmCall] ∧
    (ollamaChat (some q) { retrieval := .ok docs, llm := fun _ => .ok content }).1.status = 200 ∧
    (ollamaChat (some q) { retrieval := .ok docs, llm := fun _ => .ok content }).2 =
      [.embedQuery, .vectorQuery, .llmCall] := by
  refine ⟨?_, ?_, ?_, ?_⟩ <;> simp [geminiChat, ollamaChat, h]

/-- C10 (witness): the single-space query is fully processed. -/
theorem whitespace_query_fully_processed_witness :
    (geminiChat (some " ") { retrieval := .ok [sampleDoc], llm := fun _ => .ok "ans" }).1.status = 200 ∧
    (geminiChat (some " ") { retrieval := .ok [sampleDoc], llm := fun _ => .ok "ans" }).2 =
      [.embedQuery, .vectorQuery, .llmCall] ∧
    (ollamaChat (some " ") { retrieval := .ok [sampleDoc], llm := fun _ => .ok "ans" }).1.status = 200 ∧
    (ollamaChat (some " ") { retrieval := .ok [sampleDoc], llm := fun _ => .ok "ans" }).2 =
      [.embedQuery, .vectorQuery, .llmCall] :=
  whitespace_query_fully_processed " " (by decide) [sampleDoc] "ans"

end RagPdf
